import Mathlib

set_option autoImplicit false

/-!
Shallow embedding of the core of the `amazon-ads-mcp` repository: the
metric calculators (`src/utils/metrics.ts`), the retry executors
(`src/utils/retry.ts`), the report polling / generation workflow
(`src/utils/reporting.ts`, `src/adapters/reports.ts`), the `get_reports`
tool handler (`src/tools/get_reports.ts`), and the date utilities
(`src/utils/dates.ts`).

Modelling conventions:
* JavaScript numbers are modelled as `ℚ` (all values exercised here are
  exact decimals; NaN/Infinity never arise on the modelled paths).
* Possibly-absent values (`undefined`/missing fields) are `Option`.
* JavaScript truthiness of a possibly-absent string (`undefined`, `null`
  and `""` are falsy) is `strTruthy`; `a || b` on strings is `strOr`.
* Asynchronous network calls are replaced by an explicit oracle
  (`Upstream`) describing the upstream responses, and the functions
  additionally return how many network requests of each kind were made.
  `sleep` delays are recorded as data where a claim mentions them and
  ignored otherwise.
* Thrown exceptions become `Except` errors.  Where the source throws
  `new Error(msg)` from several distinct sites, the error type is an
  inductive with one constructor per throw site and a `message` function
  rendering the exact source message string.
-/

/-- JavaScript truthiness of a possibly-absent string: `undefined` and
the empty string are falsy. -/
def strTruthy : Option String → Bool
  | none => false
  | some s => !s.isEmpty

/-- JavaScript `o || d` where `o` is a possibly-absent string and `d` a
string default. -/
def strOr (o : Option String) (d : String) : String :=
  match o with
  | none => d
  | some s => if s.isEmpty then d else s

/-- JavaScript `o || null` on a possibly-absent string: keeps `o` when
truthy, otherwise yields null/undefined (`none`). -/
def strOpt (o : Option String) : Option String :=
  match o with
  | none => none
  | some s => if s.isEmpty then none else some s

/-- JavaScript `a || b` on possibly-absent numbers: `a` when truthy
(present and nonzero), else `b`. -/
def orNum (a b : Option ℚ) : Option ℚ :=
  match a with
  | none => b
  | some q => if q = 0 then b else some q

/-- JavaScript `a || b` on possibly-absent strings, keeping the second
operand as is when the first is falsy. -/
def orStr (a b : Option String) : Option String :=
  match a with
  | none => b
  | some s => if s.isEmpty then b else some s

/-- `Number(x.toFixed(digits))`: per ECMAScript, `toFixed` picks the
integer `n` with `n / 10^digits` closest to `x`, ties to the larger `n`,
which is `⌊x * 10^digits + 1/2⌋`. -/
def toFixedNum (digits : ℕ) (x : ℚ) : ℚ :=
  (⌊x * 10 ^ digits + 1 / 2⌋ : ℚ) / 10 ^ digits

/-! ## Metric calculators (`src/utils/metrics.ts`) -/

/-- `calculateCTR(clicks, impressions)`: `impressions > 0 ? clicks / impressions : 0`. -/
def calculateCTR (clicks impressions : ℚ) : ℚ :=
  if 0 < impressions then clicks / impressions else 0

/-- `calculateCPC(cost, clicks)`: `clicks > 0 ? cost / clicks : 0`. -/
def calculateCPC (cost clicks : ℚ) : ℚ :=
  if 0 < clicks then cost / clicks else 0

/-- `calculateACOS(cost, sales)`: `sales > 0 ? cost / sales : 0`. -/
def calculateACOS (cost sales : ℚ) : ℚ :=
  if 0 < sales then cost / sales else 0

/-- `calculateROAS(sales, cost)`: `cost > 0 ? sales / cost : 0`. -/
def calculateROAS (sales cost : ℚ) : ℚ :=
  if 0 < cost then sales / cost else 0

/-- `calculateCPA(cost, conversions)`: `conversions > 0 ? cost / conversions : 0`. -/
def calculateCPA (cost conversions : ℚ) : ℚ :=
  if 0 < conversions then cost / conversions else 0

/-- `calculateConversionRate(conversions, clicks)`: `clicks > 0 ? conversions / clicks : 0`. -/
def calculateConversionRate (conversions clicks : ℚ) : ℚ :=
  if 0 < clicks then conversions / clicks else 0

/-! ## Retry executors (`src/utils/retry.ts`)

An attempted operation is modelled as a function from the attempt index
to its outcome, and a thrown error as a record carrying the optional
axios `response` (HTTP status and optional `retry-after` header, the
only parts the executors inspect). -/

/-- The part of an axios error `response` read by the retry executors:
`status` and the `retry-after` header (seconds, absent when the header
is missing or empty). -/
structure ErrResponse where
  status : Nat
  retryAfter : Option Nat
deriving DecidableEq, Repr

/-- A thrown error as seen by the retry executors: `error.response` is
absent for plain (non-axios) errors. -/
structure JsError where
  response : Option ErrResponse
deriving DecidableEq, Repr

/-- `RetryOptions` of `retryWithBackoff`, with the source defaults
`{maxAttempts: 3, initialDelayMs: 1000, maxDelayMs: 30000, backoffMultiplier: 2}`
supplied by `defaultRetryOptions`. -/
structure RetryOptions where
  maxAttempts : Nat
  initialDelayMs : ℚ
  maxDelayMs : ℚ
  backoffMultiplier : ℚ

/-- The source defaults of `RetryOptions`. -/
def defaultRetryOptions : RetryOptions :=
  { maxAttempts := 3, initialDelayMs := 1000, maxDelayMs := 30000, backoffMultiplier := 2 }

/-- `error.response?.status === 401 || error.response?.status === 403`
(an absent response compares unequal). -/
def isAuthStatus (e : JsError) : Bool :=
  match e.response with
  | none => false
  | some r => r.status == 401 || r.status == 403

/-- `error.response?.status >= 400 && error.response?.status < 500`
(false when the response is absent). -/
def isClientStatus (e : JsError) : Bool :=
  match e.response with
  | none => false
  | some r => decide (400 ≤ r.status ∧ r.status < 500)

/-- `error.response?.status === 429` as tested by `retryRateLimit`
(an absent response is not a rate-limit error). -/
def isRateLimitStatus (e : JsError) : Bool :=
  match e.response with
  | none => false
  | some r => r.status == 429

/-- The delay `retryRateLimit` sleeps before the retry following
`attempt`: `parseInt(retry-after) * 1000` when the header is present,
else `1000 * Math.pow(2, attempt)`. -/
def rateLimitDelay (e : JsError) (attempt : Nat) : ℚ :=
  match e.response.bind (fun r => r.retryAfter) with
  | some ra => (ra : ℚ) * 1000
  | none => 1000 * 2 ^ attempt

/-- The loop body of `retryWithBackoff`.  `fuel` is the number of loop
iterations still permitted (`maxAttempts - attempt`; the top-level entry
`retryWithBackoff` seeds it accordingly).  Returns the outcome (`.error
none` models the unreachable-for-positive-`maxAttempts` final `throw
lastError!` with `lastError` unset), the number of attempts made, and
the list of backoff delays slept. -/
def retryGo {α : Type} (op : Nat → Except JsError α) (opts : RetryOptions) :
    Nat → Nat → List ℚ → Except (Option JsError) α × Nat × List ℚ
  | 0, attempt, acc => (.error none, attempt, acc)
  | fuel + 1, attempt, acc =>
    match op attempt with
    | .ok v => (.ok v, attempt + 1, acc)
    | .error e =>
      if isAuthStatus e then (.error (some e), attempt + 1, acc)
      else if isClientStatus e then (.error (some e), attempt + 1, acc)
      else if attempt == opts.maxAttempts - 1 then (.error (some e), attempt + 1, acc)
      else
        let delay := min (opts.initialDelayMs * opts.backoffMultiplier ^ attempt) opts.maxDelayMs
        retryGo op opts fuel (attempt + 1) (acc ++ [delay])

/-- `retryWithBackoff(fn, options)`: retry `fn` up to
`options.maxAttempts` times with exponential backoff, never retrying
401/403 or any other 4xx response status. -/
def retryWithBackoff {α : Type} (op : Nat → Except JsError α) (opts : RetryOptions) :
    Except (Option JsError) α × Nat × List ℚ :=
  retryGo op opts opts.maxAttempts 0 []

/-- The loop body of `retryRateLimit`, in the same fuel style as
`retryGo`. -/
def rateGo {α : Type} (op : Nat → Except JsError α) (maxAttempts : Nat) :
    Nat → Nat → List ℚ → Except (Option JsError) α × Nat × List ℚ
  | 0, attempt, acc => (.error none, attempt, acc)
  | fuel + 1, attempt, acc =>
    match op attempt with
    | .ok v => (.ok v, attempt + 1, acc)
    | .error e =>
      if !isRateLimitStatus e then (.error (some e), attempt + 1, acc)
      else if attempt == maxAttempts - 1 then (.error (some e), attempt + 1, acc)
      else rateGo op maxAttempts fuel (attempt + 1) (acc ++ [rateLimitDelay e attempt])

/-- `retryRateLimit(fn, maxAttempts)`: retry `fn` only on HTTP 429,
sleeping the server-supplied `retry-after` (seconds, times 1000) when
present and `1000 * 2^attempt` otherwise. -/
def retryRateLimit {α : Type} (op : Nat → Except JsError α) (maxAttempts : Nat) :
    Except (Option JsError) α × Nat × List ℚ :=
  rateGo op maxAttempts maxAttempts 0 []

/-! ## Report polling (`src/utils/reporting.ts`) -/

/-- The `status` field of a report status response:
`'IN_PROGRESS' | 'SUCCESS' | 'FAILURE'`. -/
inductive StatusTag where
  | inProgress
  | success
  | failure
deriving DecidableEq, Repr

/-- A `ReportStatus` response body (the fields the workflow reads).
`fileSize`/`expiresAt` are never inspected and are omitted. -/
structure ReportStatus where
  reportId : String
  status : StatusTag
  statusDetails : Option String
  location : Option String
deriving DecidableEq, Repr

/-- The two throw sites of `pollReportStatus`:
`FAILURE` (with the response `statusDetails`) and the local timeout after
`maxAttempts` polls; `message` renders the exact source messages. -/
inductive PollErr where
  | reportFailure (statusDetails : Option String)
  | pollTimeout (maxAttempts : Nat)
deriving DecidableEq, Repr

/-- The `Error` message text thrown at each `pollReportStatus` throw
site (`statusDetails || 'Unknown error'` for the failure site). -/
def PollErr.message : PollErr → String
  | .reportFailure d => "Report generation failed: " ++ strOr d "Unknown error"
  | .pollTimeout n => "Report generation timeout after " ++ (toString n ++ " attempts")

/-- The `while (attempts < maxAttempts)` loop of `pollReportStatus`.
`get i` is the response of the `i`-th status `GET /v2/reports/{id}`
(the axios client plus report id are curried into `get`); `fuel` is the
number of iterations left (`maxAttempts - attempts`, seeded by
`pollReportStatus`).  Returns the outcome and the number of status GET
requests issued.  The inter-poll `sleep(pollIntervalMs)` has no
observable effect on the outcome and is not recorded. -/
def pollGo (get : Nat → ReportStatus) (maxAttempts : Nat) :
    Nat → Nat → Except PollErr ReportStatus × Nat
  | 0, attempts => (.error (.pollTimeout maxAttempts), attempts)
  | fuel + 1, attempts =>
    let status := get attempts
    match status.status with
    | .success => (.ok status, attempts + 1)
    | .failure => (.error (.reportFailure status.statusDetails), attempts + 1)
    | .inProgress => pollGo get maxAttempts fuel (attempts + 1)

/-- `pollReportStatus(client, reportId, maxAttempts, pollIntervalMs)`:
poll the status endpoint until `SUCCESS` (returned), `FAILURE` (thrown
with the status details) or `maxAttempts` polls have been made (thrown
as a timeout).  Also returns how many status GETs were issued. -/
def pollReportStatus (get : Nat → ReportStatus) (maxAttempts : Nat) :
    Except PollErr ReportStatus × Nat :=
  pollGo get maxAttempts maxAttempts 0

/-! ## Report generation (`src/adapters/reports.ts`) -/

/-- The `filters` argument of a report request. -/
structure ReportFilters where
  state : Option String
  campaign_id : Option (List String)
deriving DecidableEq, Repr

/-- `ReportRequest` of `src/adapters/reports.ts`. -/
structure ReportRequest where
  reportType : String
  campaignType : String
  startDate : String
  endDate : String
  metrics : Option (List String)
  timeUnit : Option String
  filters : Option ReportFilters
deriving DecidableEq, Repr

/-- A raw `ReportRow` (the fields the normaliser reads; numbers are
`ℚ`, absent fields `none`). -/
structure ReportRow where
  campaignId : Option ℚ
  adGroupId : Option ℚ
  keywordId : Option ℚ
  adId : Option ℚ
  campaignName : Option String
  adGroupName : Option String
  keywordText : Option String
  asin : Option String
  date : Option String
  impressions : Option ℚ
  clicks : Option ℚ
  cost : Option ℚ
  attributedSales14d : Option ℚ
  attributedConversions14d : Option ℚ
deriving DecidableEq, Repr

/-- A downloaded report payload: either a JSON array of rows or a
single object (which `generateReport` wraps into a one-element array). -/
inductive Downloaded where
  | arr (rows : List ReportRow)
  | single (row : ReportRow)
deriving DecidableEq, Repr

/-- `buildReportEndpoint(campaignType, reportType)`:
`"/v2/${campaignType}/${reportType}/report"`. -/
def buildReportEndpoint (campaignType reportType : String) : String :=
  "/v2/" ++ campaignType ++ "/" ++ reportType ++ "/report"

/-- `buildDefaultMetrics(reportType)`: the base metric list joined with
commas (the source ignores its `reportType` argument). -/
def buildDefaultMetrics (_reportType : String) : String :=
  String.intercalate ","
    ["impressions", "clicks", "cost", "attributedSales14d", "attributedConversions14d"]

/-- The submission body assembled by `generateReport`: `reportDate` is
`request.startDate`; `metrics` is `request.metrics?.join(',') ||
buildDefaultMetrics(request.reportType)`; `timeUnit`, `segment` and
`campaignIdFilter` are attached only when their sources are truthy
(resp. a non-empty `campaign_id` array). -/
structure ReportBody where
  reportDate : String
  metrics : String
  timeUnit : Option String
  segment : Option String
  campaignIdFilter : Option String
deriving DecidableEq, Repr

/-- The upstream API as an oracle: the `reportId` answered to the
submission `POST` (as a function of the submitted endpoint and body),
the per-report sequence of status responses, and the download payload
by location URL. -/
structure Upstream where
  submit : String → ReportBody → String
  statuses : String → Nat → ReportStatus
  download : String → Downloaded

/-- Assembles the `reportBody` object of `generateReport` (lines 65-81
of `src/adapters/reports.ts`). -/
def buildReportBody (request : ReportRequest) : ReportBody :=
  { reportDate := request.startDate
    metrics :=
      match request.metrics with
      | none => buildDefaultMetrics request.reportType
      | some ms =>
        let joined := String.intercalate "," ms
        if joined.isEmpty then buildDefaultMetrics request.reportType else joined
    timeUnit := strOpt request.timeUnit
    segment := strOpt (request.filters.bind (fun f => f.state))
    campaignIdFilter :=
      match request.filters.bind (fun f => f.campaign_id) with
      | none => none
      | some ids => if 0 < ids.length then some (String.intercalate "," ids) else none }

/-- The throw sites of `generateReport`: missing profile id, a poll
error propagated from `pollReportStatus`, and `SUCCESS` without a
`location`. -/
inductive GenErr where
  | profileRequired
  | poll (e : PollErr)
  | noLocation
deriving DecidableEq, Repr

/-- The `Error` message text of each `generateReport` throw site. -/
def GenErr.message : GenErr → String
  | .profileRequired => "Profile ID is required for reports API"
  | .poll e => e.message
  | .noLocation => "Report completed but no download URL provided"

/-- Counts of network requests issued during one workflow run. -/
structure NetCount where
  posts : Nat
  statusGets : Nat
  downloads : Nat
deriving DecidableEq, Repr

/-- `generateReport(client, request)`: require a bound profile id,
build the endpoint and body, `POST` the submission to obtain a
`reportId`, poll with `maxAttempts = 30`, require a truthy `location`
on success, download it, and wrap a single-object payload into an
array.  Returns the outcome together with the network request counts. -/
def generateReport (profileId : Option String) (request : ReportRequest)
    (server : Upstream) : Except GenErr (List ReportRow) × NetCount :=
  if !strTruthy profileId then
    (.error .profileRequired, { posts := 0, statusGets := 0, downloads := 0 })
  else
    let reportEndpoint := buildReportEndpoint request.campaignType request.reportType
    let reportBody := buildReportBody request
    let reportId := server.submit reportEndpoint reportBody
    match pollReportStatus (server.statuses reportId) 30 with
    | (.error e, gets) =>
      (.error (.poll e), { posts := 1, statusGets := gets, downloads := 0 })
    | (.ok status, gets) =>
      match strOpt status.location with
      | none => (.error .noLocation, { posts := 1, statusGets := gets, downloads := 0 })
      | some loc =>
        match server.download loc with
        | .arr rows => (.ok rows, { posts := 1, statusGets := gets, downloads := 1 })
        | .single row => (.ok [row], { posts := 1, statusGets := gets, downloads := 1 })

/-! ## The `get_reports` tool handler (`src/tools/get_reports.ts`) -/

/-- The part of `user_credentials` read by `handleGetReports`. -/
structure UserCredentials where
  profile_id : Option String
deriving DecidableEq, Repr

/-- The `date_range` argument.  `undefined` and `""` members are both
falsy in the source check and are collapsed to `""` here. -/
structure DateRangeArg where
  start_date : String
  end_date : String
deriving DecidableEq, Repr

/-- The arguments object destructured by `handleGetReports`. -/
structure GetReportsArgs where
  report_type : Option String
  campaign_type : Option String
  date_range : Option DateRangeArg
  metrics : Option (List String)
  filters : Option ReportFilters
  time_unit : Option String
  user_credentials : Option UserCredentials
deriving DecidableEq, Repr

/-- A processed (normalized) report row as built by `handleGetReports`
lines 68-82. -/
structure NormalizedRow where
  entity_id : Option String
  entity_name : Option String
  date : Option String
  impressions : ℚ
  clicks : ℚ
  cost : ℚ
  sales : ℚ
  orders : ℚ
  ctr : ℚ
  cpc : ℚ
  acos : ℚ
  roas : ℚ
  conversions : ℚ
deriving DecidableEq, Repr

/-- The per-row map of `handleGetReports` (lines 61-83): read the raw
fields with `|| 0` defaults, resolve the entity id/name by the first
truthy of the four identifier (resp. name) fields, and attach the
rounded derived metrics.  `Number.prototype.toString` on an id is
modelled by `toString : ℚ → String` (ids are integers). -/
def normalizeRow (row : ReportRow) : NormalizedRow :=
  let clicks := row.clicks.getD 0
  let impressions := row.impressions.getD 0
  let cost := row.cost.getD 0
  let sales := row.attributedSales14d.getD 0
  let conversions := row.attributedConversions14d.getD 0
  { entity_id :=
      (orNum row.campaignId (orNum row.adGroupId (orNum row.keywordId row.adId))).map
        (fun q => toString q)
    entity_name :=
      strOpt (orStr row.campaignName (orStr row.adGroupName (orStr row.keywordText row.asin)))
    date := strOpt row.date
    impressions := impressions
    clicks := clicks
    cost := toFixedNum 2 cost
    sales := toFixedNum 2 sales
    orders := conversions
    ctr := toFixedNum 4 (calculateCTR clicks impressions)
    cpc := toFixedNum 2 (calculateCPC cost clicks)
    acos := toFixedNum 4 (calculateACOS cost sales)
    roas := toFixedNum 2 (calculateROAS sales cost)
    conversions := conversions }

/-- The `summary` object of `handleGetReports` (lines 86-101). -/
structure Summary where
  total_impressions : ℚ
  total_clicks : ℚ
  total_cost : ℚ
  total_sales : ℚ
  total_orders : ℚ
  avg_ctr : ℚ
  avg_cpc : ℚ
  overall_acos : ℚ
  overall_roas : ℚ
deriving DecidableEq, Repr

/-- Builds the summary: `reduce` sums over the processed rows (cost and
sales rounded to 2 places), then the ratio metrics recomputed from
those sums (lines 98-101). -/
def computeSummary (rows : List NormalizedRow) : Summary :=
  let total_impressions := rows.foldl (fun s r => s + r.impressions) 0
  let total_clicks := rows.foldl (fun s r => s + r.clicks) 0
  let total_cost := toFixedNum 2 (rows.foldl (fun s r => s + r.cost) 0)
  let total_sales := toFixedNum 2 (rows.foldl (fun s r => s + r.sales) 0)
  let total_orders := rows.foldl (fun s r => s + r.orders) 0
  { total_impressions := total_impressions
    total_clicks := total_clicks
    total_cost := total_cost
    total_sales := total_sales
    total_orders := total_orders
    avg_ctr := toFixedNum 4 (calculateCTR total_clicks total_impressions)
    avg_cpc := toFixedNum 2 (calculateCPC total_cost total_clicks)
    overall_acos := toFixedNum 4 (calculateACOS total_cost total_sales)
    overall_roas := toFixedNum 2 (calculateROAS total_sales total_cost) }

/-- The successful return value of `handleGetReports`. -/
structure HandlerResult where
  report_data : List NormalizedRow
  summary : Summary
  start_date : String
  end_date : String
  profile_id : Option String
  currency : String
deriving DecidableEq, Repr

/-- What the `try` block of `handleGetReports` can throw: the two
`{type: 'VALIDATION', ...}` objects, or a plain `Error` escaping from
`generateReport`. -/
inductive ThrownErr where
  | validation (message : String)
  | genError (e : GenErr)
deriving DecidableEq, Repr

/-- The classified error `handleGetReports` reports to its caller. -/
inductive HandlerErr where
  | validation (message : String)
  | upstream (message : String) (upstream_code : Option Nat)
deriving DecidableEq, Repr

/-- The profile id in effect after lines 28-30 of the handler: the
truthy `user_credentials.profile_id` is bound via `setProfile`,
otherwise whatever was already bound on the client remains. -/
def resolvedProfile (clientProfile : Option String) (args : GetReportsArgs) : Option String :=
  let argProfile := args.user_credentials.bind (fun c => c.profile_id)
  if strTruthy argProfile then argProfile else clientProfile

/-- The `try` block of `handleGetReports` (lines 16-112): resolve the
profile (`setProfile` from truthy credentials, else the one already
bound on the client), fail with `VALIDATION` when none is bound or the
date range is missing/empty, then run `generateReport` with the
defaulted arguments and post-process rows and summary. -/
def handleGetReportsTry (clientProfile : Option String) (args : GetReportsArgs)
    (server : Upstream) : Except ThrownErr HandlerResult × NetCount :=
  let profile := resolvedProfile clientProfile args
  if !strTruthy profile then
    (.error (.validation "profile_id is required in user_credentials"),
      { posts := 0, statusGets := 0, downloads := 0 })
  else
    match args.date_range with
    | none =>
      (.error (.validation "date_range with start_date and end_date is required"),
        { posts := 0, statusGets := 0, downloads := 0 })
    | some dr =>
      if dr.start_date.isEmpty || dr.end_date.isEmpty then
        (.error (.validation "date_range with start_date and end_date is required"),
          { posts := 0, statusGets := 0, downloads := 0 })
      else
        let request : ReportRequest :=
          { reportType := strOr args.report_type "campaigns"
            campaignType := strOr args.campaign_type "sp"
            startDate := dr.start_date
            endDate := dr.end_date
            metrics := some (args.metrics.getD
              ["impressions", "clicks", "cost", "attributedSales14d",
                "attributedConversions14d"])
            timeUnit := some (strOr args.time_unit "SUMMARY")
            filters := args.filters }
        match generateReport profile request server with
        | (.error e, net) => (.error (.genError e), net)
        | (.ok rows, net) =>
          let processedData := rows.map normalizeRow
          (.ok { report_data := processedData
                 summary := computeSummary processedData
                 start_date := dr.start_date
                 end_date := dr.end_date
                 profile_id := profile
                 currency := "USD" }, net)

/-- `handleGetReports(client, args)`: run the `try` block; the `catch`
rethrows `VALIDATION` errors verbatim and wraps everything else as
`{type: 'UPSTREAM', message, upstream_code: error.response?.status ||
null}` (the errors thrown by `generateReport` are plain `Error`s with
no `response`, so `upstream_code` is null). -/
def handleGetReports (clientProfile : Option String) (args : GetReportsArgs)
    (server : Upstream) : Except HandlerErr HandlerResult × NetCount :=
  match handleGetReportsTry clientProfile args server with
  | (.ok r, net) => (.ok r, net)
  | (.error (.validation m), net) => (.error (.validation m), net)
  | (.error (.genError e), net) => (.error (.upstream (GenErr.message e) none), net)

/-! ## Date utilities (`src/utils/dates.ts`)

`new Date(year, monthIndex, day)` never yields an invalid date for the
argument ranges reachable from an 8-digit string: out-of-range months
and days roll over arithmetically (ECMAScript `MakeDay`), and the
resulting time value is far inside the `TimeClip` bound.  The embedding
implements `MakeDay`/`TimeClip` exactly (up to the local-time offset,
negligible against the `8.64e15` ms bound at these magnitudes). -/

/-- `parseInt` on a string of decimal digits (the only inputs it
receives below, guaranteed by the `^\d{8}$` test of the validator). -/
def digitsToNat (l : List Char) : Nat :=
  l.foldl (fun a c => a * 10 + (c.toNat - 48)) 0

/-- Days from 1970-01-01 to year/month(1-12)/day in the proleptic
Gregorian calendar; affine in `day`, so out-of-range days extend the
count, exactly as ECMAScript `MakeDay` does. -/
def daysFromCivil (y m d : Int) : Int :=
  let y' := if m ≤ 2 then y - 1 else y
  let era := y'.fdiv 400
  let yoe := y' - era * 400
  let doy := (153 * ((m + 9).emod 12) + 2).fdiv 5 + d - 1
  let doe := yoe * 365 + yoe.fdiv 4 - yoe.fdiv 100 + doy
  era * 146097 + doe - 719468

/-- ECMAScript `MakeDay(year, month, date)` in days since the epoch:
the (0-based) month is normalised into the year and the (1-based) date
offsets affinely. -/
def jsMakeDay (year month date : Int) : Int :=
  daysFromCivil (year + month.fdiv 12) (month.emod 12 + 1) date

/-- The two-digit-year rule of the `Date(year, month, date)`
constructor: `0 ≤ year ≤ 99` means `1900 + year`. -/
def jsYearAdjust (y : Int) : Int :=
  if 0 ≤ y ∧ y ≤ 99 then 1900 + y else y

/-- Whether `new Date(year, monthIndex, day).getTime()` is not NaN:
the time value in milliseconds must lie within the ECMAScript
`TimeClip` bound of `8.64e15`. -/
def jsDateValid (year month date : Int) : Bool :=
  (jsMakeDay (jsYearAdjust year) month date * 86400000).natAbs ≤ 8640000000000000

/-- The argument triple `fromAmazonDateFormat` passes to
`new Date(year, month, day)`. -/
structure JsDateArgs where
  year : Int
  monthIndex : Int
  day : Int
deriving DecidableEq, Repr

/-- `fromAmazonDateFormat(dateStr)`: throw on length ≠ 8, else parse
`YYYY`, `MM - 1`, `DD` and hand them to the `Date` constructor. -/
def fromAmazonDateFormat (dateStr : String) : Except String JsDateArgs :=
  if dateStr.length ≠ 8 then
    .error ("Invalid Amazon date format: " ++ (dateStr ++ ". Expected YYYYMMDD"))
  else
    .ok { year := digitsToNat (dateStr.data.take 4)
          monthIndex := (digitsToNat ((dateStr.data.drop 4).take 2) : Int) - 1
          day := digitsToNat ((dateStr.data.drop 6).take 2) }

/-- `isValidAmazonDate(dateStr)`: the `^\d{8}$` test, then
`fromAmazonDateFormat` and `!isNaN(date.getTime())` (exceptions give
false). -/
def isValidAmazonDate (dateStr : String) : Bool :=
  if !(dateStr.length == 8 && dateStr.data.all (fun c => c.isDigit)) then false
  else
    match fromAmazonDateFormat dateStr with
    | .error _ => false
    | .ok a => jsDateValid a.year a.monthIndex a.day

/-- Gregorian leap-year rule. -/
def isLeapYear (y : Nat) : Bool :=
  (y % 4 == 0 && y % 100 != 0) || y % 400 == 0

/-- Number of days of month `m` (1-12) in year `y`. -/
def daysInMonth (y m : Nat) : Nat :=
  if m == 2 then (if isLeapYear y then 29 else 28)
  else if m == 4 || m == 6 || m == 9 || m == 11 then 30
  else 31

/-- The spec-side notion the validator claim is measured against: an
8-digit numeric string denotes a real calendar date (month 1-12, day
within that month). -/
def isRealCalendarDate (dateStr : String) : Bool :=
  dateStr.length == 8 && dateStr.data.all (fun c => c.isDigit) &&
    (let y := digitsToNat (dateStr.data.take 4)
     let m := digitsToNat ((dateStr.data.drop 4).take 2)
     let d := digitsToNat ((dateStr.data.drop 6).take 2)
     1 ≤ m && m ≤ 12 && 1 ≤ d && d ≤ daysInMonth y m)

/-! ## Verified properties -/

/-- The two `pollReportStatus` throw sites render distinct messages. -/
lemma failedMsg_ne_timeoutMsg (s t : String) :
    "Report generation failed: " ++ s ≠ "Report generation timeout after " ++ t := by
  intro h
  have h1 := congrArg (fun u => u.data.take 19) h
  simp only [String.data_append, List.take_append_eq_append_take] at h1
  simp at h1

/-- Skipping `k` consecutive `IN_PROGRESS` responses advances the poll
loop by `k` iterations. -/
lemma pollGo_skip (get : Nat → ReportStatus) (maxAttempts : Nat) :
    ∀ (k fuel attempts : Nat), k ≤ fuel →
      (∀ i, i < k → (get (attempts + i)).status = .inProgress) →
      pollGo get maxAttempts fuel attempts =
        pollGo get maxAttempts (fuel - k) (attempts + k) := by
  intro k
  induction k with
  | zero => intro fuel attempts _ _; simp
  | succ k ih =>
    intro fuel attempts hk hprog
    obtain ⟨f, rfl⟩ : ∃ f, fuel = f + 1 := ⟨fuel - 1, by omega⟩
    have h0 : (get attempts).status = .inProgress := by
      simpa using hprog 0 (Nat.succ_pos k)
    have step : pollGo get maxAttempts (f + 1) attempts =
        pollGo get maxAttempts f (attempts + 1) := by
      simp only [pollGo, h0]
    rw [step]
    have hrest : ∀ i, i < k → (get (attempts + 1 + i)).status = .inProgress := by
      intro i hi
      have := hprog (i + 1) (by omega)
      rwa [show attempts + (i + 1) = attempts + 1 + i by omega] at this
    rw [ih f (attempts + 1) (by omega) hrest]
    rw [show f - k = f + 1 - (k + 1) by omega,
      show attempts + 1 + k = attempts + (k + 1) by omega]

/-- If the first `k` status responses are `IN_PROGRESS` and the `k`-th
is `SUCCESS`, polling returns that response after `k + 1` GETs. -/
lemma poll_success (get : Nat → ReportStatus) (maxAttempts k : Nat)
    (hk : k < maxAttempts)
    (hprog : ∀ i, i < k → (get i).status = .inProgress)
    (hsucc : (get k).status = .success) :
    pollReportStatus get maxAttempts = (.ok (get k), k + 1) := by
  unfold pollReportStatus
  rw [pollGo_skip get maxAttempts k maxAttempts 0 (le_of_lt hk) (by simpa using hprog)]
  obtain ⟨m, hm⟩ : ∃ m, maxAttempts - k = m + 1 := ⟨maxAttempts - k - 1, by omega⟩
  rw [hm]
  simp [pollGo, hsucc]

/-- If the first `k` status responses are `IN_PROGRESS` and the `k`-th
is `FAILURE`, polling throws the failure after `k + 1` GETs. -/
lemma poll_failure (get : Nat → ReportStatus) (maxAttempts k : Nat)
    (hk : k < maxAttempts)
    (hprog : ∀ i, i < k → (get i).status = .inProgress)
    (hfail : (get k).status = .failure) :
    pollReportStatus get maxAttempts =
      (.error (.reportFailure (get k).statusDetails), k + 1) := by
  unfold pollReportStatus
  rw [pollGo_skip get maxAttempts k maxAttempts 0 (le_of_lt hk) (by simpa using hprog)]
  obtain ⟨m, hm⟩ : ∃ m, maxAttempts - k = m + 1 := ⟨maxAttempts - k - 1, by omega⟩
  rw [hm]
  simp [pollGo, hfail]

/-- If every status response within the budget is `IN_PROGRESS`,
polling throws the local timeout after exactly `maxAttempts` GETs. -/
lemma poll_timeout (get : Nat → ReportStatus) (maxAttempts : Nat)
    (hprog : ∀ i, i < maxAttempts → (get i).status = .inProgress) :
    pollReportStatus get maxAttempts =
      (.error (.pollTimeout maxAttempts), maxAttempts) := by
  unfold pollReportStatus
  rw [pollGo_skip get maxAttempts maxAttempts maxAttempts 0 le_rfl (by simpa using hprog)]
  simp [pollGo]

/-- C2: for every poll sequence whose status responses never leave
IN_PROGRESS, the workflow terminates with the local TIMEOUT error after
exactly the attempt ceiling of status GETs, and the surfaced TIMEOUT
message is distinct from every FAILURE message. -/
theorem claim_poll_exhaustion_times_out (get : Nat → ReportStatus) (maxAttempts : Nat)
    (hprog : ∀ i, (get i).status = .inProgress) :
    pollReportStatus get maxAttempts = (.error (.pollTimeout maxAttempts), maxAttempts) ∧
    ∀ d, (PollErr.pollTimeout maxAttempts).message ≠ (PollErr.reportFailure d).message := by
  constructor
  · exact poll_timeout get maxAttempts (fun i _ => hprog i)
  · intro d h
    simp only [PollErr.message] at h
    exact failedMsg_ne_timeoutMsg (strOr d "Unknown error")
      (toString maxAttempts ++ " attempts") h.symm

/-- A status oracle that always answers IN_PROGRESS. -/
def witGetInProgress : Nat → ReportStatus :=
  fun _ => { reportId := "R", status := .inProgress, statusDetails := none, location := none }

/-- Witness for C2 at the default ceiling of 30 attempts. -/
theorem claim_poll_exhaustion_times_out_witness :
    pollReportStatus witGetInProgress 30 = (.error (.pollTimeout 30), 30) ∧
    ∀ d, (PollErr.pollTimeout 30).message ≠ (PollErr.reportFailure d).message :=
  claim_poll_exhaustion_times_out witGetInProgress 30 (fun _ => rfl)

/-- C3: for every poll sequence whose next status response (after any
run of IN_PROGRESS responses) is FAILURE with statusDetails X, the
workflow fails right there — after exactly k+1 status GETs, issuing no
further polls — and the surfaced message contains X. -/
theorem claim_poll_failure_fails_fast (get : Nat → ReportStatus)
    (maxAttempts k : Nat) (details : String)
    (hk : k < maxAttempts)
    (hprog : ∀ i, i < k → (get i).status = .inProgress)
    (hfail : (get k).status = .failure)
    (hdet : (get k).statusDetails = some details)
    (hne : details.isEmpty = false) :
    pollReportStatus get maxAttempts = (.error (.reportFailure (some details)), k + 1) ∧
    (PollErr.reportFailure (some details)).message =
      "Report generation failed: " ++ details := by
  constructor
  · have h := poll_failure get maxAttempts k hk hprog hfail
    rwa [hdet] at h
  · simp [PollErr.message, strOr, hne]

/-- A status oracle that immediately answers FAILURE with details X. -/
def witGetFailure : Nat → ReportStatus :=
  fun _ => { reportId := "R", status := .failure, statusDetails := some "X", location := none }

/-- Witness for C3: the failure surfaces on the very first poll. -/
theorem claim_poll_failure_fails_fast_witness :
    pollReportStatus witGetFailure 30 = (.error (.reportFailure (some "X")), 1) ∧
    (PollErr.reportFailure (some "X")).message = "Report generation failed: " ++ "X" :=
  claim_poll_failure_fails_fast witGetFailure 30 0 "X" (by decide)
    (fun i hi => absurd hi (Nat.not_lt_zero i)) rfl rfl rfl

/-- C4: when the supplied credentials carry no truthy profile_id and
none is bound on the client, handleGetReports fails with the exact
VALIDATION error — rethrown verbatim by the catch block, not wrapped as
UPSTREAM — and performs zero network requests. -/
theorem claim_missing_profile_is_validation (clientProfile : Option String)
    (args : GetReportsArgs) (server : Upstream)
    (harg : strTruthy (args.user_credentials.bind (fun c => c.profile_id)) = false)
    (hcli : strTruthy clientProfile = false) :
    handleGetReports clientProfile args server =
      (.error (.validation "profile_id is required in user_credentials"),
        { posts := 0, statusGets := 0, downloads := 0 }) := by
  have hres : resolvedProfile clientProfile args = clientProfile := by
    simp [resolvedProfile, harg]
  simp [handleGetReports, handleGetReportsTry, hres, hcli]

/-- An upstream oracle never reached by the validation-failure claims. -/
def witServerTrivial : Upstream :=
  { submit := fun _ _ => "R"
    statuses := fun _ _ => { reportId := "R", status := .inProgress, statusDetails := none, location := none }
    download := fun _ => .arr [] }

/-- Arguments carrying no credentials at all. -/
def witArgsNoProfile : GetReportsArgs :=
  { report_type := none, campaign_type := none, date_range := none, metrics := none,
    filters := none, time_unit := none, user_credentials := none }

/-- Witness for C4. -/
theorem claim_missing_profile_is_validation_witness :
    handleGetReports none witArgsNoProfile witServerTrivial =
      (.error (.validation "profile_id is required in user_credentials"),
        { posts := 0, statusGets := 0, downloads := 0 }) :=
  claim_missing_profile_is_validation none witArgsNoProfile witServerTrivial rfl rfl

/-- C5: an operation wrapped by retryWithBackoff that fails with an
error classified AUTH (HTTP 401) or FORBIDDEN (HTTP 403) is attempted
exactly once — no retries, no backoff sleeps — whatever maxAttempts is
configured. -/
theorem claim_no_retry_on_auth {α : Type} (op : Nat → Except JsError α)
    (opts : RetryOptions) (e : JsError) (r : ErrResponse)
    (hpos : 0 < opts.maxAttempts)
    (h0 : op 0 = .error e)
    (hr : e.response = some r)
    (hs : r.status = 401 ∨ r.status = 403) :
    retryWithBackoff op opts = (.error (some e), 1, []) := by
  have hauth : isAuthStatus e = true := by
    rcases hs with h | h <;> simp [isAuthStatus, hr, h]
  unfold retryWithBackoff
  obtain ⟨m, hm⟩ : ∃ m, opts.maxAttempts = m + 1 := ⟨opts.maxAttempts - 1, by omega⟩
  rw [hm]
  simp [retryGo, h0, hauth]

/-- A 401-classified error and an operation that always throws it. -/
def witErr401 : JsError := { response := some { status := 401, retryAfter := none } }

/-- Operation failing with the 401 error on every attempt. -/
def witOpAuth : Nat → Except JsError Nat := fun _ => .error witErr401

/-- Witness for C5 at the source default options (maxAttempts 3). -/
theorem claim_no_retry_on_auth_witness :
    retryWithBackoff witOpAuth defaultRetryOptions = (.error (some witErr401), 1, []) :=
  claim_no_retry_on_auth witOpAuth defaultRetryOptions witErr401
    { status := 401, retryAfter := none } (by decide) rfl rfl (Or.inl rfl)

/-- C8: every derived-metric function guards division by zero by
returning exactly 0 when its denominator is 0. -/
theorem claim_metrics_zero_guard :
    ∀ clicks cost sales conversions : ℚ,
      calculateCTR clicks 0 = 0 ∧ calculateCPC cost 0 = 0 ∧
      calculateConversionRate conversions 0 = 0 ∧ calculateACOS cost 0 = 0 ∧
      calculateROAS sales 0 = 0 ∧ calculateCPA cost 0 = 0 := by
  intro clicks cost sales conversions
  simp [calculateCTR, calculateCPC, calculateConversionRate, calculateACOS,
    calculateROAS, calculateCPA]

/-- C9: the validator accepts "20230230" (February 30th) even though it
is not a real calendar date, because `new Date(2023, 1, 30)` rolls over
to March 2nd instead of yielding NaN — contradicting the claim that
impossible calendar dates are rejected. -/
theorem claim_date_validator_accepts_impossible_date :
    isValidAmazonDate "20230230" = true ∧ isRealCalendarDate "20230230" = false := by
  constructor <;> decide

/-- C10: two report requests differing only in endDate produce the same
submission body and the same submission endpoint — reportDate is taken
from startDate alone — and indeed the whole generateReport run is
unchanged. -/
theorem claim_endDate_does_not_influence_submission :
    ∀ (r : ReportRequest) (d₁ d₂ : String) (p : Option String) (server : Upstream),
      buildReportBody { r with endDate := d₁ } = buildReportBody { r with endDate := d₂ } ∧
      buildReportEndpoint ({ r with endDate := d₁ }).campaignType
          ({ r with endDate := d₁ }).reportType =
        buildReportEndpoint ({ r with endDate := d₂ }).campaignType
          ({ r with endDate := d₂ }).reportType ∧
      generateReport p { r with endDate := d₁ } server =
        generateReport p { r with endDate := d₂ } server := by
  intro r d₁ d₂ p server
  exact ⟨rfl, rfl, rfl⟩

/-- Running the rate-limit loop over `k` consecutive 429 failures and
then a success returns the success, counting `k + 1` attempts and
sleeping exactly the source-prescribed delay before each retry. -/
lemma rateGo_skip_ok {α : Type} (op : Nat → Except JsError α) (maxAttempts : Nat)
    (errs : Nat → JsError) (v : α) :
    ∀ (k attempt : Nat) (acc : List ℚ),
      attempt + k < maxAttempts →
      (∀ i, i < k → op (attempt + i) = .error (errs (attempt + i)) ∧
        isRateLimitStatus (errs (attempt + i)) = true) →
      op (attempt + k) = .ok v →
      rateGo op maxAttempts (maxAttempts - attempt) attempt acc =
        (.ok v, attempt + k + 1,
          acc ++ (List.range k).map (fun i => rateLimitDelay (errs (attempt + i)) (attempt + i))) := by
  intro k
  induction k with
  | zero =>
    intro attempt acc hlt _ hok
    obtain ⟨f, hf⟩ : ∃ f, maxAttempts - attempt = f + 1 := ⟨maxAttempts - attempt - 1, by omega⟩
    rw [hf]
    simp only [Nat.add_zero] at hok
    simp [rateGo, hok]
  | succ k ih =>
    intro attempt acc hlt herrs hok
    obtain ⟨f, hf⟩ : ∃ f, maxAttempts - attempt = f + 1 := ⟨maxAttempts - attempt - 1, by omega⟩
    rw [hf]
    have h0 := herrs 0 (Nat.succ_pos k)
    simp only [Nat.add_zero] at h0
    have hne : (attempt == maxAttempts - 1) = false := by
      simp only [beq_eq_false_iff_ne]
      omega
    simp only [rateGo, h0.1, h0.2, hne, Bool.not_true, Bool.false_eq_true, if_false]
    have hf2 : f = maxAttempts - (attempt + 1) := by omega
    rw [hf2, ih (attempt + 1) (acc ++ [rateLimitDelay (errs attempt) attempt]) (by omega)
      (fun i hi => by
        have h := herrs (i + 1) (by omega)
        rwa [show attempt + (i + 1) = attempt + 1 + i by omega] at h)
      (by rwa [show attempt + 1 + k = attempt + (k + 1) by omega])]
    have hlist : (List.range (k + 1)).map
        (fun i => rateLimitDelay (errs (attempt + i)) (attempt + i)) =
        rateLimitDelay (errs attempt) attempt ::
          (List.range k).map (fun i => rateLimitDelay (errs (attempt + 1 + i)) (attempt + 1 + i)) := by
    -- range (k+1) = 0 :: (range k).map succ
      rw [List.range_succ_eq_map]
      simp only [List.map_cons, Nat.add_zero, List.map_map]
      refine congrArg _ (List.map_congr_left ?_)
      intro i _
      simp only [Function.comp_apply]
      rw [show attempt + (i + 1) = attempt + 1 + i by omega]
    rw [hlist]
    simp only [List.append_assoc, List.singleton_append]
    rw [show attempt + 1 + k + 1 = attempt + (k + 1) + 1 by omega]

/-- C6: the rate-limit retry executor (a) propagates any non-429 error
immediately after a single attempt, and (b) when every failure up to a
successful attempt is a 429, it returns that success after j+1 attempts
having slept, before each retry, the server-supplied retry-after
converted to milliseconds when present and 1000 * 2^attempt otherwise
(which is what `rateLimitDelay` computes). -/
theorem claim_rate_limit_retry_policy {α : Type} :
    (∀ (op : Nat → Except JsError α) (maxAttempts : Nat) (e : JsError),
      0 < maxAttempts → op 0 = .error e → isRateLimitStatus e = false →
      retryRateLimit op maxAttempts = (.error (some e), 1, [])) ∧
    (∀ (op : Nat → Except JsError α) (maxAttempts j : Nat) (errs : Nat → JsError) (v : α),
      j < maxAttempts →
      (∀ k, k < j → op k = .error (errs k) ∧ isRateLimitStatus (errs k) = true) →
      op j = .ok v →
      retryRateLimit op maxAttempts =
        (.ok v, j + 1, (List.range j).map (fun k => rateLimitDelay (errs k) k))) := by
  constructor
  · intro op maxAttempts e hpos h0 hnot
    unfold retryRateLimit
    obtain ⟨m, hm⟩ : ∃ m, maxAttempts = m + 1 := ⟨maxAttempts - 1, by omega⟩
    rw [hm]
    simp [rateGo, h0, hnot]
  · intro op maxAttempts j errs v hj herrs hok
    unfold retryRateLimit
    have h := rateGo_skip_ok op maxAttempts errs v j 0 [] (by omega)
      (fun i hi => by simpa using herrs i hi) (by simpa using hok)
    rw [show maxAttempts - 0 = maxAttempts by omega] at h
    rw [h]
    simp

/-- A 500-classified error and an operation that always throws it. -/
def witErr500 : JsError := { response := some { status := 500, retryAfter := none } }

/-- Operation failing with the 500 error on every attempt. -/
def witOp500 : Nat → Except JsError Nat := fun _ => .error witErr500

/-- The two 429 errors of the C6 witness run: the first carries
retry-after 1 second, the second no retry-after header. -/
def witErrsRL : Nat → JsError :=
  fun i => if i = 0 then { response := some { status := 429, retryAfter := some 1 } }
    else { response := some { status := 429, retryAfter := none } }

/-- Operation rate-limited on attempts 0 and 1, succeeding on 2. -/
def witOpRL : Nat → Except JsError Nat :=
  fun i => if i < 2 then .error (witErrsRL i) else .ok 42

/-- Witness for C6: the 500 error propagates after one attempt; the
twice-rate-limited run succeeds on the third attempt with the
prescribed delays. -/
theorem claim_rate_limit_retry_policy_witness :
    retryRateLimit witOp500 3 = (.error (some witErr500), 1, []) ∧
    retryRateLimit witOpRL 3 =
      (.ok 42, 3, (List.range 2).map (fun k => rateLimitDelay (witErrsRL k) k)) := by
  constructor
  · exact (@claim_rate_limit_retry_policy Nat).1 witOp500 3 witErr500 (by decide) rfl rfl
  · exact (@claim_rate_limit_retry_policy Nat).2 witOpRL 3 2 witErrsRL 42 (by decide)
      (by intro k hk; interval_cases k <;> exact ⟨rfl, rfl⟩) rfl

/-- First normalized row of the C7 example. -/
def witRowA : NormalizedRow :=
  { entity_id := none, entity_name := none, date := none,
    impressions := 100, clicks := 10, cost := 5, sales := 50, orders := 0,
    ctr := 0, cpc := 0, acos := 0, roas := 0, conversions := 0 }

/-- Second normalized row of the C7 example. -/
def witRowB : NormalizedRow :=
  { entity_id := none, entity_name := none, date := none,
    impressions := 200, clicks := 20, cost := 10, sales := 100, orders := 0,
    ctr := 0, cpc := 0, acos := 0, roas := 0, conversions := 0 }

/-- C7: the summary of the two example normalized rows has the totals
summed across rows and the overall ratios recomputed from those
aggregate sums (overall_acos = 15/150 = 0.10, overall_roas = 150/15 =
10.00), not averaged per row. -/
theorem claim_summary_from_aggregate_sums :
    (computeSummary [witRowA, witRowB]).total_impressions = 300 ∧
    (computeSummary [witRowA, witRowB]).total_clicks = 30 ∧
    (computeSummary [witRowA, witRowB]).total_cost = 15 ∧
    (computeSummary [witRowA, witRowB]).total_sales = 150 ∧
    (computeSummary [witRowA, witRowB]).overall_acos = 0.10 ∧
    (computeSummary [witRowA, witRowB]).overall_roas = 10 ∧
    (computeSummary [witRowA, witRowB]).overall_acos =
      toFixedNum 4 (calculateACOS (computeSummary [witRowA, witRowB]).total_cost
        (computeSummary [witRowA, witRowB]).total_sales) ∧
    (computeSummary [witRowA, witRowB]).overall_roas =
      toFixedNum 2 (calculateROAS (computeSummary [witRowA, witRowB]).total_sales
        (computeSummary [witRowA, witRowB]).total_cost) := by
  have hsum : computeSummary [witRowA, witRowB] =
      { total_impressions := 300, total_clicks := 30, total_cost := 15,
        total_sales := 150, total_orders := 0, avg_ctr := 0.1, avg_cpc := 0.5,
        overall_acos := 0.1, overall_roas := 10 } := by
    norm_num [computeSummary, witRowA, witRowB, List.foldl, toFixedNum,
      calculateCTR, calculateCPC, calculateACOS, calculateROAS]
  rw [hsum]
  norm_num [toFixedNum, calculateACOS, calculateROAS]

/-- With a bound profile, a submission answered `rid`, two IN_PROGRESS
statuses followed by SUCCESS at a truthy location, and an array
download, `generateReport` returns the rows after one POST, three
status GETs and one download. -/
lemma generateReport_ok (profileId : Option String) (request : ReportRequest)
    (server : Upstream) (rid loc : String) (rows : List ReportRow)
    (hp : strTruthy profileId = true)
    (hsub : server.submit (buildReportEndpoint request.campaignType request.reportType)
      (buildReportBody request) = rid)
    (h0 : (server.statuses rid 0).status = .inProgress)
    (h1 : (server.statuses rid 1).status = .inProgress)
    (h2 : (server.statuses rid 2).status = .success)
    (hloc : (server.statuses rid 2).location = some loc)
    (hne : loc.isEmpty = false)
    (hdl : server.download loc = .arr rows) :
    generateReport profileId request server =
      (.ok rows, { posts := 1, statusGets := 3, downloads := 1 }) := by
  have hprog : ∀ i, i < 2 → ((server.statuses rid) i).status = .inProgress := by
    intro i hi
    interval_cases i
    · exact h0
    · exact h1
  have hpoll := poll_success (server.statuses rid) 30 2 (by omega) hprog h2
  unfold generateReport
  rw [hp]
  simp only [Bool.not_true, Bool.false_eq_true, if_false]
  rw [hsub, hpoll]
  simp [strOpt, hloc, hne, hdl]

/-- C1: a get_reports invocation whose submission yields reportId rid,
whose poll sequence is [IN_PROGRESS, IN_PROGRESS, SUCCESS(location)],
and whose download of that location returns an array of 3 rows,
performs exactly 3 status GET requests and returns exactly 3 normalized
rows. -/
theorem claim_report_workflow_three_polls_three_rows (clientProfile : Option String)
    (args : GetReportsArgs) (server : Upstream) (rid loc : String)
    (dr : DateRangeArg) (rows : List ReportRow)
    (hprof : strTruthy (resolvedProfile clientProfile args) = true)
    (hdr : args.date_range = some dr)
    (hsd : dr.start_date.isEmpty = false)
    (hed : dr.end_date.isEmpty = false)
    (hsub : ∀ e b, server.submit e b = rid)
    (h0 : (server.statuses rid 0).status = .inProgress)
    (h1 : (server.statuses rid 1).status = .inProgress)
    (h2 : (server.statuses rid 2).status = .success)
    (hloc : (server.statuses rid 2).location = some loc)
    (hne : loc.isEmpty = false)
    (hdl : server.download loc = .arr rows)
    (hlen : rows.length = 3) :
    (handleGetReports clientProfile args server).2.statusGets = 3 ∧
    ∃ res, (handleGetReports clientProfile args server).1 = .ok res ∧
      res.report_data.length = 3 := by
  have hgen := generateReport_ok (resolvedProfile clientProfile args)
    { reportType := strOr args.report_type "campaigns"
      campaignType := strOr args.campaign_type "sp"
      startDate := dr.start_date
      endDate := dr.end_date
      metrics := some (args.metrics.getD
        ["impressions", "clicks", "cost", "attributedSales14d", "attributedConversions14d"])
      timeUnit := some (strOr args.time_unit "SUMMARY")
      filters := args.filters }
    server rid loc rows hprof (hsub _ _) h0 h1 h2 hloc hne hdl
  have hhandler : handleGetReports clientProfile args server =
      (.ok { report_data := rows.map normalizeRow
             summary := computeSummary (rows.map normalizeRow)
             start_date := dr.start_date
             end_date := dr.end_date
             profile_id := resolvedProfile clientProfile args
             currency := "USD" },
        { posts := 1, statusGets := 3, downloads := 1 }) := by
    unfold handleGetReports handleGetReportsTry
    simp only [hprof, hdr, hsd, hed, Bool.not_true, Bool.false_eq_true, if_false, Bool.or_self]
    rw [hgen]
  rw [hhandler]
  exact ⟨rfl, _, rfl, by simp [hlen]⟩

/-- An empty raw report row (all fields absent). -/
def witRow3 : ReportRow :=
  { campaignId := none, adGroupId := none, keywordId := none, adId := none,
    campaignName := none, adGroupName := none, keywordText := none, asin := none,
    date := none, impressions := none, clicks := none, cost := none,
    attributedSales14d := none, attributedConversions14d := none }

/-- Oracle for the C1 witness: submission yields "R1", the status
sequence is IN_PROGRESS, IN_PROGRESS, SUCCESS(location), and the
download returns three rows. -/
def witServerC1 : Upstream :=
  { submit := fun _ _ => "R1"
    statuses := fun _ i =>
      if i < 2 then
        { reportId := "R1", status := .inProgress, statusDetails := none, location := none }
      else
        { reportId := "R1", status := .success, statusDetails := none,
          location := some "https://s3/report" }
    download := fun _ => .arr [witRow3, witRow3, witRow3] }

/-- Arguments for the C1 witness: credentials bind profile "P1" and a
date range is supplied. -/
def witArgsC1 : GetReportsArgs :=
  { report_type := none, campaign_type := none,
    date_range := some { start_date := "20240101", end_date := "20240107" },
    metrics := none, filters := none, time_unit := none,
    user_credentials := some { profile_id := some "P1" } }

/-- Witness for C1. -/
theorem claim_report_workflow_three_polls_three_rows_witness :
    (handleGetReports none witArgsC1 witServerC1).2.statusGets = 3 ∧
    ∃ res, (handleGetReports none witArgsC1 witServerC1).1 = .ok res ∧
      res.report_data.length = 3 :=
  claim_report_workflow_three_polls_three_rows none witArgsC1 witServerC1 "R1"
    "https://s3/report" { start_date := "20240101", end_date := "20240107" }
    [witRow3, witRow3, witRow3] rfl rfl rfl rfl (fun _ _ => rfl) rfl rfl rfl rfl rfl rfl rfl
